import Mathlib

/-!
Shallow embedding of the bedmakerCLI transcript engine
(`src/bedmaker/common/models.py`, `src/bedmaker/common/tark_api.py`,
`src/bedmaker/common/db.py`, `src/bedmaker/transcripts/api.py`)
together with theorems settling the frozen claims about it.

Python dictionaries are modelled as association lists of string keys to
`PyVal` values (insertion-ordered, unique keys when produced by the code),
Python exceptions as an `Except PyErr` result, and the stateful TinyDB
wrapper as explicit state passing over a `DBState`.
-/

namespace Bedmaker

/-- Model of the Python/JSON values that flow through the program:
`None`, ints, strings, booleans, lists and (insertion-ordered) dicts. -/
inductive PyVal where
  | pynone : PyVal
  | int (n : Int) : PyVal
  | str (s : String) : PyVal
  | bool (b : Bool) : PyVal
  | list (xs : List PyVal) : PyVal
  | dict (kvs : List (String × PyVal)) : PyVal

/-- A Python dict: association list of keys to values, insertion order kept. -/
abbrev PyDict := List (String × PyVal)

/-- First-match lookup, the semantics of `d[k]` / `d.get(k)` on dicts whose
keys are unique (as every dict built by this code base is). -/
def pyLookup (d : PyDict) (k : String) : Option PyVal :=
  (d.find? (fun kv => kv.1 == k)).map (fun kv => kv.2)

/-- Python `k in d`. -/
def pyMem (d : PyDict) (k : String) : Bool :=
  d.any (fun kv => kv.1 == k)

/-- Python `d.get(k, default)`. -/
def pyGetD (d : PyDict) (k : String) (default : PyVal) : PyVal :=
  (pyLookup d k).getD default

/-- Python `d.get(k)` (default `None`). -/
def pyGet (d : PyDict) (k : String) : PyVal :=
  pyGetD d k .pynone

/-- Python `d[k] = v`: overwrite in place when the key exists, else append. -/
def pySet (d : PyDict) (k : String) (v : PyVal) : PyDict :=
  match d with
  | [] => [(k, v)]
  | kv :: rest => if kv.1 == k then (k, v) :: rest else kv :: pySet rest k v

/-- Python `d.update(changes)` (dict-merge used by `DB.update`). -/
def pyDictUpdate (d : PyDict) (changes : PyDict) : PyDict :=
  changes.foldl (fun acc kv => pySet acc kv.1 kv.2) d

/-- Python `v == s` for a string literal `s` on the right. -/
def pyEqStr (v : PyVal) (s : String) : Bool :=
  match v with
  | .str t => t == s
  | _ => false

/-- The exceptions the embedded code can raise.  `InvalidTranscriptId` and
`MissingRefseqStableId` come from `bedmaker.common.exceptions`; the others
are built-in Python errors the code can run into. -/
inductive PyErr where
  /-- `InvalidTranscriptId(msg)` — malformed identifier (or unknown store key). -/
  | invalidTranscriptId (msg : String) : PyErr
  /-- `MissingRefseqStableId` — store invariant violated on add. -/
  | missingRefseqStableId : PyErr
  /-- Built-in `TypeError` (e.g. a dataclass constructor missing required arguments). -/
  | typeError (msg : String) : PyErr
  /-- Built-in `KeyError` (TinyDB update/delete on a missing doc id). -/
  | keyError : PyErr
  /-- A pydantic validation failure inside `Model(**data)`. -/
  | validationError : PyErr
deriving DecidableEq

/-! ## Data models (`src/bedmaker/common/models.py`)

Each pydantic model becomes a structure; `Optional[...] = None` fields become
`Option` fields defaulting to `none`. -/

/-- `GenomicRange` (models.py lines 147-153): all fields required. -/
structure GenomicRange where
  range_id : String
  loc_start : Int
  loc_end : Int
  loc_region : String
  loc_strand : Int
  loc_checksum : String
deriving DecidableEq

/-- `Exon` (models.py lines 217-227). -/
structure Exon where
  exon_id : Option Int := none
  exon_id_version : Option Int := none
  transcript_stable_id : Option String := none
  genomic_ranges : GenomicRange
  exon_order : Option Int := none
  exon_checksum : Option String := none
deriving DecidableEq

/-- `Utr` (models.py lines 230-238). -/
structure Utr where
  utr_id : Option Int := none
  utr_type : Option String := none
  ens_stable_id : Option String := none
  genomic_ranges : Option GenomicRange := none
deriving DecidableEq

/-- `Transcript` (models.py lines 156-177). -/
structure Transcript where
  request_id : String
  ens_stable_id : Option String := none
  ens_stable_id_version : Option Int := none
  refseq_stable_id : Option String := none
  refseq_stable_id_version : Option Int := none
  assembly : Option String := none
  biotype : Option String := none
  transcript_checksum : Option String := none
  mane_type : Option String := none
  gene_name : Option String := none
  gene_id : Option String := none
  gene_id_version : Option Int := none
  genomic_ranges : GenomicRange
  loc_checksum : Option String := none
  exons : List Exon := []
  exon_set_checksum : Option String := none
  utrs : List Utr := []
deriving DecidableEq

/-! ## `to_dict` — the `CommonModel.to_dict` / pydantic `model_dump()` projection.
Nested models are dumped to nested dicts, `None` to `None`, in field order. -/

/-- Encode an optional string field the way `model_dump` does. -/
def optStr : Option String → PyVal
  | none => .pynone
  | some s => .str s

/-- Encode an optional int field the way `model_dump` does. -/
def optInt : Option Int → PyVal
  | none => .pynone
  | some n => .int n

/-- `GenomicRange.model_dump()` as a key/value list. -/
def GenomicRange.pairs (g : GenomicRange) : PyDict :=
  [("range_id", .str g.range_id), ("loc_start", .int g.loc_start),
   ("loc_end", .int g.loc_end), ("loc_region", .str g.loc_region),
   ("loc_strand", .int g.loc_strand), ("loc_checksum", .str g.loc_checksum)]

/-- `GenomicRange.to_dict()`. -/
def GenomicRange.to_dict (g : GenomicRange) : PyVal := .dict g.pairs

/-- `Exon.to_dict()` key/value list. -/
def Exon.pairs (e : Exon) : PyDict :=
  [("exon_id", optInt e.exon_id), ("exon_id_version", optInt e.exon_id_version),
   ("transcript_stable_id", optStr e.transcript_stable_id),
   ("genomic_ranges", e.genomic_ranges.to_dict),
   ("exon_order", optInt e.exon_order), ("exon_checksum", optStr e.exon_checksum)]

/-- `Exon.to_dict()`. -/
def Exon.to_dict (e : Exon) : PyVal := .dict e.pairs

/-- Encode `Utr.genomic_ranges`, an optional nested model. -/
def optRange : Option GenomicRange → PyVal
  | none => .pynone
  | some g => g.to_dict

/-- `Utr.to_dict()` key/value list. -/
def Utr.pairs (u : Utr) : PyDict :=
  [("utr_id", optInt u.utr_id), ("utr_type", optStr u.utr_type),
   ("ens_stable_id", optStr u.ens_stable_id),
   ("genomic_ranges", optRange u.genomic_ranges)]

/-- `Utr.to_dict()`. -/
def Utr.to_dict (u : Utr) : PyVal := .dict u.pairs

/-- `Transcript.to_dict()` key/value list, in pydantic field order. -/
def Transcript.pairs (t : Transcript) : PyDict :=
  [("request_id", .str t.request_id),
   ("ens_stable_id", optStr t.ens_stable_id),
   ("ens_stable_id_version", optInt t.ens_stable_id_version),
   ("refseq_stable_id", optStr t.refseq_stable_id),
   ("refseq_stable_id_version", optInt t.refseq_stable_id_version),
   ("assembly", optStr t.assembly), ("biotype", optStr t.biotype),
   ("transcript_checksum", optStr t.transcript_checksum),
   ("mane_type", optStr t.mane_type), ("gene_name", optStr t.gene_name),
   ("gene_id", optStr t.gene_id), ("gene_id_version", optInt t.gene_id_version),
   ("genomic_ranges", t.genomic_ranges.to_dict),
   ("loc_checksum", optStr t.loc_checksum),
   ("exons", .list (t.exons.map Exon.to_dict)),
   ("exon_set_checksum", optStr t.exon_set_checksum),
   ("utrs", .list (t.utrs.map Utr.to_dict))]

/-- `Transcript.to_dict()`. -/
def Transcript.to_dict (t : Transcript) : PyVal := .dict t.pairs

/-! ## `from_dict` — `CommonModel.from_dict(data) = cls(**data)`.
Pydantic validates each declared field from the dict (extra keys are ignored,
the default behaviour); a missing required field or a value of the wrong
shape is a validation error. -/

/-- Decode a required string field. -/
def decStr : PyVal → Except PyErr String
  | .str s => .ok s
  | _ => .error .validationError

/-- Decode a required int field. -/
def decInt : PyVal → Except PyErr Int
  | .int n => .ok n
  | _ => .error .validationError

/-- Decode an `Optional[str]` field value. -/
def decOptStr : PyVal → Except PyErr (Option String)
  | .pynone => .ok none
  | .str s => .ok (some s)
  | _ => .error .validationError

/-- Decode an `Optional[int]` field value. -/
def decOptInt : PyVal → Except PyErr (Option Int)
  | .pynone => .ok none
  | .int n => .ok (some n)
  | _ => .error .validationError

/-- Fetch a required field from the input dict (missing → validation error). -/
def reqField (d : PyDict) (k : String) : Except PyErr PyVal :=
  match pyLookup d k with
  | some v => .ok v
  | none => .error .validationError

/-- Fetch an optional field: a missing key falls back to the declared default. -/
def optField {α : Type} (d : PyDict) (k : String) (dec : PyVal → Except PyErr α)
    (default : α) : Except PyErr α :=
  match pyLookup d k with
  | some v => dec v
  | none => .ok default

/-- `GenomicRange.from_dict` / pydantic validation of a nested dict. -/
def GenomicRange.from_dict (v : PyVal) : Except PyErr GenomicRange := do
  match v with
  | .dict d =>
    let range_id ← decStr (← reqField d "range_id")
    let loc_start ← decInt (← reqField d "loc_start")
    let loc_end ← decInt (← reqField d "loc_end")
    let loc_region ← decStr (← reqField d "loc_region")
    let loc_strand ← decInt (← reqField d "loc_strand")
    let loc_checksum ← decStr (← reqField d "loc_checksum")
    return { range_id, loc_start, loc_end, loc_region, loc_strand, loc_checksum }
  | _ => .error .validationError

/-- `Exon.from_dict`. -/
def Exon.from_dict (v : PyVal) : Except PyErr Exon := do
  match v with
  | .dict d =>
    let exon_id ← optField d "exon_id" decOptInt none
    let exon_id_version ← optField d "exon_id_version" decOptInt none
    let transcript_stable_id ← optField d "transcript_stable_id" decOptStr none
    let genomic_ranges ← GenomicRange.from_dict (← reqField d "genomic_ranges")
    let exon_order ← optField d "exon_order" decOptInt none
    let exon_checksum ← optField d "exon_checksum" decOptStr none
    return { exon_id, exon_id_version, transcript_stable_id, genomic_ranges,
             exon_order, exon_checksum }
  | _ => .error .validationError

/-- Decode `Utr.genomic_ranges` (`GenomicRange | None`). -/
def decOptRange : PyVal → Except PyErr (Option GenomicRange)
  | .pynone => .ok none
  | v => (GenomicRange.from_dict v).map some

/-- `Utr.from_dict`. -/
def Utr.from_dict (v : PyVal) : Except PyErr Utr := do
  match v with
  | .dict d =>
    let utr_id ← optField d "utr_id" decOptInt none
    let utr_type ← optField d "utr_type" decOptStr none
    let ens_stable_id ← optField d "ens_stable_id" decOptStr none
    let genomic_ranges ← optField d "genomic_ranges" decOptRange none
    return { utr_id, utr_type, ens_stable_id, genomic_ranges }
  | _ => .error .validationError

/-- Decode the `exons` list field. -/
def decExons : PyVal → Except PyErr (List Exon)
  | .list xs => xs.mapM Exon.from_dict
  | _ => .error .validationError

/-- Decode the `utrs` list field. -/
def decUtrs : PyVal → Except PyErr (List Utr)
  | .list xs => xs.mapM Utr.from_dict
  | _ => .error .validationError

/-- `Transcript.from_dict(data) = Transcript(**data)`: pydantic validation,
extra keys (such as the store's `id`) ignored. -/
def Transcript.from_dict (v : PyVal) : Except PyErr Transcript := do
  match v with
  | .dict d =>
    let request_id ← decStr (← reqField d "request_id")
    let ens_stable_id ← optField d "ens_stable_id" decOptStr none
    let ens_stable_id_version ← optField d "ens_stable_id_version" decOptInt none
    let refseq_stable_id ← optField d "refseq_stable_id" decOptStr none
    let refseq_stable_id_version ← optField d "refseq_stable_id_version" decOptInt none
    let assembly ← optField d "assembly" decOptStr none
    let biotype ← optField d "biotype" decOptStr none
    let transcript_checksum ← optField d "transcript_checksum" decOptStr none
    let mane_type ← optField d "mane_type" decOptStr none
    let gene_name ← optField d "gene_name" decOptStr none
    let gene_id ← optField d "gene_id" decOptStr none
    let gene_id_version ← optField d "gene_id_version" decOptInt none
    let genomic_ranges ← GenomicRange.from_dict (← reqField d "genomic_ranges")
    let loc_checksum ← optField d "loc_checksum" decOptStr none
    let exons ← optField d "exons" decExons []
    let exon_set_checksum ← optField d "exon_set_checksum" decOptStr none
    let utrs ← optField d "utrs" decUtrs []
    return { request_id, ens_stable_id, ens_stable_id_version, refseq_stable_id,
             refseq_stable_id_version, assembly, biotype, transcript_checksum,
             mane_type, gene_name, gene_id, gene_id_version, genomic_ranges,
             loc_checksum, exons, exon_set_checksum, utrs }
  | _ => .error .validationError

/-! ## `MANETranscriptFetcher` (`src/bedmaker/common/tark_api.py`)

The fetcher's pure methods become functions; the HTTP transport becomes an
oracle parameter `responses : String → PyVal` giving the decoded JSON body
returned for each requested stable id. -/

/-- Python `s.startswith(p)`, via the character lists of the strings. -/
def pyStartswith (s p : String) : Bool :=
  p.toList.isPrefixOf s.toList

/-- Python `s.split(".")` on the character list: split on every dot,
keeping empty pieces (so `"".split(".") = [""]`). -/
def pySplitDot : List Char → List (List Char)
  | [] => [[]]
  | c :: rest =>
    if c = '.' then [] :: pySplitDot rest
    else
      match pySplitDot rest with
      | [] => [[c]]
      | h :: t => (c :: h) :: t

/-- Python `s.isdigit()` for the ASCII identifier grammar this code handles:
non-empty and every character a decimal digit. -/
def pyIsdigit (s : List Char) : Bool :=
  !s.isEmpty && s.all Char.isDigit

/-- `MANETranscriptFetcher.check_id_type` (tark_api.py lines 72-82):
prefix dispatch to `"ensembl"` / `"refseq"`, else `InvalidTranscriptId`. -/
def check_id_type (stable_id : String) : Except PyErr String :=
  if pyStartswith stable_id "ENST" then .ok "ensembl"
  else if pyStartswith stable_id "NM_" || pyStartswith stable_id "NR_" then .ok "refseq"
  else .error (.invalidTranscriptId stable_id)

/-- `MANETranscriptFetcher.is_id_version_included` (tark_api.py lines 84-94). -/
def is_id_version_included (stable_id : String) : Except PyErr Bool :=
  let split_stable_id := pySplitDot stable_id.toList
  if split_stable_id.length = 1 then .ok false
  else if split_stable_id.length = 2 && pyIsdigit (split_stable_id.getD 1 []) then .ok true
  else .error (.invalidTranscriptId stable_id)

/-- The `SelectedTranscripts` dataclass (tark_api.py lines 15-34).  The first
three fields have no default; the rest default as declared.  (The line
`all_transcript_version_ids = List[str]` carries no annotation, so it is a
plain class attribute, not a dataclass field.) -/
structure SelectedTranscripts where
  requested_id : String
  mane_transcript : Option Transcript
  clinical_plus_transcript : Option Transcript
  mane_transcript_found : Bool := false
  clinical_plus_transcript_found : Bool := false
  is_mane_transcript_requested : Bool := false
  is_clinical_plus_requested : Bool := false
  are_additional_transcripts_requested : Bool := false
  non_coding_gene : Bool := false
deriving DecidableEq

/-- The call `SelectedTranscripts()` on line 175 of tark_api.py: a dataclass
`__init__` raises `TypeError` when a field without a default is not supplied,
and `requested_id`, `mane_transcript` and `clinical_plus_transcript` are all
missing here. -/
def SelectedTranscripts.callNoArgs : Except PyErr SelectedTranscripts :=
  .error (.typeError "missing 3 required positional arguments")

/-- The class-level attributes of `SelectedTranscripts` that the parse loop
assigns (`SelectedTranscripts.mane_transcript = ...` etc., tark_api.py lines
249-254).  These live on the class object, not on the returned instance, and
two of them (`is_mane_transcript`, `is_clinical_plus_transcript`) are not
declared dataclass fields at all. -/
structure SelectedTranscriptsClassAttrs where
  mane_transcript : Option Transcript := none
  is_mane_transcript : Bool := false
  clinical_plus_transcript : Option Transcript := none
  is_clinical_plus_transcript : Bool := false
deriving DecidableEq

/-- `result.get(k, "")` followed by use as a string (missing key falls back
to the default string; a non-string value would fail at `startswith`). -/
def pyGetStrD (d : PyDict) (k : String) (default : String) : Except PyErr String :=
  match pyLookup d k with
  | none => .ok default
  | some (.str s) => .ok s
  | some _ => .error (.typeError "expected a str")

/-- Build one `Exon` from a raw exon record, as the comprehension on
tark_api.py lines 179-194 does (pydantic validates each field). -/
def parse_exon (e : PyDict) : Except PyErr Exon := do
  let exon_id ← decOptInt (pyGet e "exon_id")
  let exon_id_version ← decOptInt (pyGet e "exon_version")
  let loc_start ← decInt (pyGet e "loc_start")
  let loc_end ← decInt (pyGet e "loc_end")
  let loc_strand ← decInt (pyGet e "loc_strand")
  let loc_region ← decStr (pyGet e "loc_region")
  let loc_checksum ← decStr (pyGet e "loc_checksum")
  let exon_checksum ← decOptStr (pyGet e "exon_checksum")
  return { exon_id, exon_id_version,
           genomic_ranges := { range_id := "range_id", loc_start, loc_end,
                               loc_strand, loc_region, loc_checksum },
           exon_checksum }

/-- Build one `Utr` from a raw utr record (tark_api.py lines 196-210). -/
def parse_utr (u : PyDict) : Except PyErr Utr := do
  let utr_id ← decOptInt (pyGet u "exon_id")
  let ens_stable_id ← decOptStr (pyGet u "ens_stable_id")
  let loc_start ← decInt (pyGet u "loc_start")
  let loc_end ← decInt (pyGet u "loc_end")
  let loc_strand ← decInt (pyGet u "loc_strand")
  let loc_region ← decStr (pyGet u "loc_region")
  let loc_checksum ← decStr (pyGet u "loc_checksum")
  return { utr_id, ens_stable_id,
           genomic_ranges := some { range_id := "range_id", loc_start, loc_end,
                                    loc_strand, loc_region, loc_checksum } }

/-- Decode a raw record's list-valued key into a list of dicts. -/
def recList (d : PyDict) (k : String) : List PyDict :=
  match pyGetD d k (.list []) with
  | .list xs => xs.filterMap (fun v => match v with | .dict kvs => some kvs | _ => none)
  | _ => []

/-- `result.get("genes", [{}])[0]` — the first gene record, an empty dict
when the key is missing. -/
def firstGene (d : PyDict) : PyDict :=
  match pyGetD d "genes" (.list [.dict []]) with
  | .list (.dict g :: _) => g
  | _ => []

/-- The body of the `for result in data.get("results", [])` loop of
`parse_transcript_data` (tark_api.py lines 177-254), acting on the class
attributes: a record without a `mane_transcript_type` key is skipped; a
record with one is built into a `Transcript` and then assigned onto the
class attributes only when its type is exactly `"MANE Select"` or
`"MANE Plus Clinical"` (any other value is built and dropped).  Because the
function body raises before this loop can run, this is dead code in the
program; it is embedded to show what the loop would and would not do. -/
def parse_loop_step (attrs : SelectedTranscriptsClassAttrs) (result : PyDict) :
    Except PyErr SelectedTranscriptsClassAttrs := do
  if pyMem result "mane_transcript_type" then
    let exons ← (recList result "exons").mapM parse_exon
    let utrs ← (recList result "utrs").mapM parse_utr
    let idStr ← pyGetStrD result "stable_id" ""
    let idType ← check_id_type idStr
    let stableId ← decOptStr (pyGet result "stable_id")
    let stableIdVersion ← decOptInt (pyGet result "stable_id_version")
    let ens_stable_id := if idType = "ensembl" then stableId else none
    let ens_stable_id_version := if idType = "ensembl" then stableIdVersion else none
    let refseq_stable_id := if idType = "refseq" then stableId else none
    let refseq_stable_id_version := if idType = "refseq" then stableIdVersion else none
    let assembly ← decOptStr (pyGet result "assembly")
    let biotype ← decOptStr (pyGet result "biotype")
    let transcript_checksum ← decOptStr (pyGet result "transcript_checksum")
    let mane_type ← decOptStr (pyGet result "mane_transcript_type")
    let gene_name ← decOptStr (pyGet (firstGene result) "name")
    let gene_id ← decOptStr (pyGet (firstGene result) "stable_id")
    let gene_id_version ← decOptInt (pyGet (firstGene result) "stable_id_version")
    let loc_start ← decInt (pyGet result "loc_start")
    let loc_end ← decInt (pyGet result "loc_end")
    let loc_strand ← decInt (pyGet result "loc_strand")
    let loc_region ← decStr (pyGet result "loc_region")
    let loc_checksum ← decStr (pyGet result "loc_checksum")
    let exon_set_checksum ← decOptStr (pyGet result "exon_set_checksum")
    let selected_transcript : Transcript :=
      { request_id := "placeholder", ens_stable_id, ens_stable_id_version,
        refseq_stable_id, refseq_stable_id_version, assembly, biotype,
        transcript_checksum, mane_type, gene_name, gene_id, gene_id_version,
        genomic_ranges := { range_id := "range_id", loc_start, loc_end,
                            loc_strand, loc_region, loc_checksum },
        exons, utrs, exon_set_checksum }
    if pyEqStr (pyGet result "mane_transcript_type") "MANE Select" then
      return { attrs with mane_transcript := some selected_transcript,
                          is_mane_transcript := true }
    else if pyEqStr (pyGet result "mane_transcript_type") "MANE Plus Clinical" then
      return { attrs with clinical_plus_transcript := some selected_transcript,
                          is_clinical_plus_transcript := true }
    else
      return attrs
  else
    return attrs

/-- `data.get("results", [])` as a list of record dicts. -/
def resultsOf (data : PyVal) : List PyDict :=
  match data with
  | .dict d => recList d "results"
  | _ => []

/-- `MANETranscriptFetcher.parse_transcript_data` (tark_api.py lines 170-256).
Its first statement, `transcripts = SelectedTranscripts()`, raises `TypeError`
(three required dataclass fields are not supplied), so the loop below it never
runs and the function never returns a value. -/
def parse_transcript_data (data : PyVal) : Except PyErr SelectedTranscripts := do
  let transcripts ← SelectedTranscripts.callNoArgs
  let _ ← (resultsOf data).foldlM parse_loop_step {}
  return transcripts

/-- `MANETranscriptFetcher.fetch_mane_transcript` (tark_api.py lines 136-157):
fetch the JSON body for the stable id (the commented-out status-code check is
not active) and hand it to `parse_transcript_data`. -/
def fetch_mane_transcript (responses : String → PyVal) (stable_id : String) :
    Except PyErr SelectedTranscripts :=
  parse_transcript_data (responses stable_id)

/-- `asyncio.gather(*tasks)` with the default `return_exceptions=False`:
either every task's value, in task order, or the batch fails with a raised
exception. -/
def asyncioGather {α : Type} (tasks : List (Except PyErr α)) : Except PyErr (List α) :=
  tasks.mapM id

/-- `MANETranscriptFetcher.fetch_multiple_transcripts` (tark_api.py lines
159-168): one fetch task per stable id, gathered. -/
def fetch_multiple_transcripts (responses : String → PyVal) (stable_ids : List String) :
    Except PyErr (List SelectedTranscripts) :=
  asyncioGather (stable_ids.map (fetch_mane_transcript responses))

/-! ## `DB` (`src/bedmaker/common/db.py`) over TinyDB

The TinyDB table is a sequence of documents with strictly increasing integer
doc ids; `insert` assigns the next id. -/

/-- The document store: documents in insertion order with their integer ids,
plus the next id to assign. -/
structure DBState where
  docs : List (Nat × PyDict)
  next_id : Nat

/-- A freshly created (empty) TinyDB table: ids start at 1. -/
def DBState.empty : DBState := { docs := [], next_id := 1 }

/-- The TinyDB id invariant: every stored doc id is below the next id
(so ids are unique and a fresh id collides with nothing). -/
def DBState.wf (db : DBState) : Prop :=
  ∀ p ∈ db.docs, p.1 < db.next_id

/-- `DB.create(item)`: insert the document, return its new doc id. -/
def DB.create (db : DBState) (item : PyDict) : DBState × Nat :=
  ({ docs := db.docs ++ [(db.next_id, item)], next_id := db.next_id + 1 }, db.next_id)

/-- `DB.read(id)`: the document with that id, if any. -/
def DB.read (db : DBState) (transcript_id : Nat) : Option PyDict :=
  ((db.docs.find? (fun p => p.1 == transcript_id)).map (fun p => p.2))

/-- `DB.read_all()`: all documents in insertion order. -/
def DB.read_all (db : DBState) : List PyDict :=
  db.docs.map (fun p => p.2)

/-- Python `v is None` on a dict value. -/
def isPyNone : PyVal → Bool
  | .pynone => true
  | _ => false

/-- `DB.update(id, mods)`: drop `None`-valued keys from `mods`, then merge
into the document with that id; TinyDB raises `KeyError` when the id is
absent. -/
def DB.update (db : DBState) (transcript_id : Nat) (mods : PyDict) :
    Except PyErr DBState :=
  let changes := mods.filter (fun kv => !isPyNone kv.2)
  if db.docs.any (fun p => p.1 == transcript_id) then
    .ok { db with docs := db.docs.map (fun p =>
            if p.1 == transcript_id then (p.1, pyDictUpdate p.2 changes) else p) }
  else
    .error .keyError

/-- `DB.count()`. -/
def DB.count (db : DBState) : Nat := db.docs.length

/-! ## `transcriptsDB` (`src/bedmaker/transcripts/api.py`) -/

/-- Python truthiness of an `Optional[str]`: `None` and `""` are falsy. -/
def truthyOptStr : Option String → Bool
  | none => false
  | some s => !s.isEmpty

/-- `transcriptsDB.add_transcript` (api.py lines 32-40).  Raises
`MissingRefseqStableId` on a falsy `refseq_stable_id`; otherwise normalizes a
`None` `ens_stable_id` to `""` (mutating the passed transcript), creates the
document from `to_dict()`, and writes the assigned id back into it.
Returns the state alongside the outcome (a raise leaves the state as it was). -/
def add_transcript (db : DBState) (transcript : Transcript) :
    DBState × Except PyErr Nat :=
  if !truthyOptStr transcript.refseq_stable_id then
    (db, .error .missingRefseqStableId)
  else
    let transcript :=
      if transcript.ens_stable_id = none then
        { transcript with ens_stable_id := some "" }
      else transcript
    match transcript.to_dict with
    | .dict item =>
      let (db, transcript_id) := DB.create db item
      match DB.update db transcript_id [("id", .int transcript_id)] with
      | .ok db => (db, .ok transcript_id)
      | .error e => (db, .error e)
    | _ => (db, .error .validationError)

/-- `transcriptsDB.get_transcript` (api.py lines 42-48). -/
def get_transcript (db : DBState) (transcript_id : Nat) : Except PyErr Transcript :=
  match DB.read db transcript_id with
  | some db_item => Transcript.from_dict (.dict db_item)
  | none => .error (.invalidTranscriptId "unknown id")

/-- Chained comparison `start <= v <= end` between Python ints and a dict
value (`bool` is an int subtype; any other type raises `TypeError`). -/
def chainedLe (start : Int) (v : PyVal) (end_ : Int) : Except PyErr Bool :=
  match v with
  | .int n => .ok (decide (start ≤ n) && decide (n ≤ end_))
  | .bool b => let n : Int := if b then 1 else 0
               .ok (decide (start ≤ n) && decide (n ≤ end_))
  | _ => .error (.typeError "ordering not supported")

/-- The location predicate of `list_transcripts` (api.py lines 62-69):
`"location_start" in t and "location_end" in t and start <= t["location_start"]
<= end and start <= t["location_end"] <= end`, with Python short-circuiting. -/
def locPred (start end_ : Int) (t : PyDict) : Except PyErr Bool := do
  if pyMem t "location_start" && pyMem t "location_end" then
    let b1 ← chainedLe start (pyGet t "location_start") end_
    if b1 then chainedLe start (pyGet t "location_end") end_
    else return false
  else
    return false

/-- `t["gene_name"] == gene_name` (a missing key raises `KeyError`). -/
def genePred (gene_name : String) (t : PyDict) : Except PyErr Bool :=
  match pyLookup t "gene_name" with
  | some v => .ok (pyEqStr v gene_name)
  | none => .error .keyError

/-- `transcriptsDB.list_transcripts` (api.py lines 50-71): read all documents,
apply the gene-name filter then the location-range filter, and rebuild
`Transcript` values from the surviving documents. -/
def list_transcripts (db : DBState) (gene_name : Option String)
    (location_range : Option (Int × Int)) : Except PyErr (List Transcript) := do
  let all_transcripts := DB.read_all db
  let filtered_transcripts := all_transcripts
  let filtered_transcripts ←
    match gene_name with
    | some g => filtered_transcripts.filterM (genePred g)
    | none => pure filtered_transcripts
  let filtered_transcripts ←
    match location_range with
    | some (start, end_) => filtered_transcripts.filterM (locPred start end_)
    | none => pure filtered_transcripts
  filtered_transcripts.mapM (fun t => Transcript.from_dict (.dict t))

/-- `transcriptsDB.count` (api.py lines 73-75). -/
def transcriptsDB.count (db : DBState) : Nat := DB.count db

/-- Python `len(v)` for the values `stats` meets (`len` of a list/str/dict;
anything else raises `TypeError`). -/
def pyLen : PyVal → Except PyErr Nat
  | .list xs => .ok xs.length
  | .str s => .ok s.length
  | .dict d => .ok d.length
  | _ => .error (.typeError "object has no len")

/-- One iteration of the `stats` loop (api.py lines 123-132) over the running
`(total_transcripts, MANE_transcripts, clinical_plus_transcripts, total_exons)`
counters. -/
def stats_step (acc : Nat × Nat × Nat × Nat) (transcript : PyDict) :
    Except PyErr (Nat × Nat × Nat × Nat) := do
  let (total, mane, clinical, exons) := acc
  let exon_len ← pyLen (pyGetD transcript "exons" (.list []))
  let mane' := if pyEqStr (pyGet transcript "mane_type") "MANE SELECT"
               then mane + 1 else mane
  let clinical' := if !pyEqStr (pyGet transcript "mane_type") "MANE SELECT" &&
                      pyEqStr (pyGet transcript "mane_type") "MANE PLUS CLINICAL"
                   then clinical + 1 else clinical
  return (total + 1, mane', clinical', exons + exon_len)

/-- `transcriptsDB.stats` (api.py lines 115-139): a single pass over the
store, returning the Python result dict with the code's exact keys. -/
def stats (db : DBState) : Except PyErr PyVal := do
  let (total, mane, clinical, exons) ← (DB.read_all db).foldlM stats_step (0, 0, 0, 0)
  return .dict [("total_transcripts", .int total), ("MANE_transcripts", .int mane),
                ("clinical_plus_transcripts", .int clinical),
                ("total_exons", .int exons)]

/-! ## Round-trip lemmas for the `to_dict` / `from_dict` projection -/

theorem ok_bind {α β : Type} (a : α) (f : α → Except PyErr β) :
    (Except.ok a : Except PyErr α) >>= f = f a := rfl

theorem decOptStr_optStr (x : Option String) : decOptStr (optStr x) = .ok x := by
  cases x <;> rfl

theorem decOptInt_optInt (x : Option Int) : decOptInt (optInt x) = .ok x := by
  cases x <;> rfl

theorem genomicRange_round (g : GenomicRange) :
    GenomicRange.from_dict g.to_dict = .ok g := rfl

theorem decOptRange_optRange (x : Option GenomicRange) :
    decOptRange (optRange x) = .ok x := by
  cases x <;> rfl

theorem exon_round (e : Exon) : Exon.from_dict e.to_dict = .ok e := by
  obtain ⟨a, b, c, g, d, f⟩ := e
  cases a <;> cases b <;> cases c <;> cases d <;> cases f <;> rfl

theorem utr_round (u : Utr) : Utr.from_dict u.to_dict = .ok u := by
  obtain ⟨a, b, c, g⟩ := u
  cases a <;> cases b <;> cases c <;> cases g <;> rfl

theorem mapM_exon_round (l : List Exon) :
    (l.map Exon.to_dict).mapM Exon.from_dict = .ok l := by
  induction l with
  | nil => rfl
  | cons h t ih =>
    simp only [List.map_cons, List.mapM_cons, exon_round, ih, ok_bind]
    rfl

theorem mapM_utr_round (l : List Utr) :
    (l.map Utr.to_dict).mapM Utr.from_dict = .ok l := by
  induction l with
  | nil => rfl
  | cons h t ih =>
    simp only [List.map_cons, List.mapM_cons, utr_round, ih, ok_bind]
    rfl

/-! Field-access lemmas: looking up each declared field key in
`t.pairs ++ extra` finds the encoded field (the literal keys in `pairs`
shadow any appended extra keys, such as the store's `"id"`). -/

theorem req_request_id (t : Transcript) (extra : PyDict) :
    reqField (t.pairs ++ extra) "request_id" = .ok (.str t.request_id) := rfl

theorem opt_ens_stable_id (t : Transcript) (extra : PyDict) :
    optField (t.pairs ++ extra) "ens_stable_id" decOptStr none =
      decOptStr (optStr t.ens_stable_id) := rfl

theorem opt_ens_stable_id_version (t : Transcript) (extra : PyDict) :
    optField (t.pairs ++ extra) "ens_stable_id_version" decOptInt none =
      decOptInt (optInt t.ens_stable_id_version) := rfl

theorem opt_refseq_stable_id (t : Transcript) (extra : PyDict) :
    optField (t.pairs ++ extra) "refseq_stable_id" decOptStr none =
      decOptStr (optStr t.refseq_stable_id) := rfl

theorem opt_refseq_stable_id_version (t : Transcript) (extra : PyDict) :
    optField (t.pairs ++ extra) "refseq_stable_id_version" decOptInt none =
      decOptInt (optInt t.refseq_stable_id_version) := rfl

theorem opt_assembly (t : Transcript) (extra : PyDict) :
    optField (t.pairs ++ extra) "assembly" decOptStr none =
      decOptStr (optStr t.assembly) := rfl

theorem opt_biotype (t : Transcript) (extra : PyDict) :
    optField (t.pairs ++ extra) "biotype" decOptStr none =
      decOptStr (optStr t.biotype) := rfl

theorem opt_transcript_checksum (t : Transcript) (extra : PyDict) :
    optField (t.pairs ++ extra) "transcript_checksum" decOptStr none =
      decOptStr (optStr t.transcript_checksum) := rfl

theorem opt_mane_type (t : Transcript) (extra : PyDict) :
    optField (t.pairs ++ extra) "mane_type" decOptStr none =
      decOptStr (optStr t.mane_type) := rfl

theorem opt_gene_name (t : Transcript) (extra : PyDict) :
    optField (t.pairs ++ extra) "gene_name" decOptStr none =
      decOptStr (optStr t.gene_name) := rfl

theorem opt_gene_id (t : Transcript) (extra : PyDict) :
    optField (t.pairs ++ extra) "gene_id" decOptStr none =
      decOptStr (optStr t.gene_id) := rfl

theorem opt_gene_id_version (t : Transcript) (extra : PyDict) :
    optField (t.pairs ++ extra) "gene_id_version" decOptInt none =
      decOptInt (optInt t.gene_id_version) := rfl

theorem req_genomic_ranges (t : Transcript) (extra : PyDict) :
    reqField (t.pairs ++ extra) "genomic_ranges" = .ok t.genomic_ranges.to_dict := rfl

theorem opt_loc_checksum (t : Transcript) (extra : PyDict) :
    optField (t.pairs ++ extra) "loc_checksum" decOptStr none =
      decOptStr (optStr t.loc_checksum) := rfl

theorem opt_exons (t : Transcript) (extra : PyDict) :
    optField (t.pairs ++ extra) "exons" decExons [] =
      (t.exons.map Exon.to_dict).mapM Exon.from_dict := rfl

theorem opt_exon_set_checksum (t : Transcript) (extra : PyDict) :
    optField (t.pairs ++ extra) "exon_set_checksum" decOptStr none =
      decOptStr (optStr t.exon_set_checksum) := rfl

theorem opt_utrs (t : Transcript) (extra : PyDict) :
    optField (t.pairs ++ extra) "utrs" decUtrs [] =
      (t.utrs.map Utr.to_dict).mapM Utr.from_dict := rfl

/-- Reconstructing a `Transcript` from its dumped pairs, with any extra
key/value pairs appended after them (pydantic ignores extra keys), recovers
the original value. -/
theorem Transcript.from_dict_pairs_append (t : Transcript) (extra : PyDict) :
    Transcript.from_dict (.dict (t.pairs ++ extra)) = .ok t := by
  show (do
    let request_id ← decStr (← reqField (t.pairs ++ extra) "request_id")
    let ens_stable_id ← optField (t.pairs ++ extra) "ens_stable_id" decOptStr none
    let ens_stable_id_version ←
      optField (t.pairs ++ extra) "ens_stable_id_version" decOptInt none
    let refseq_stable_id ← optField (t.pairs ++ extra) "refseq_stable_id" decOptStr none
    let refseq_stable_id_version ←
      optField (t.pairs ++ extra) "refseq_stable_id_version" decOptInt none
    let assembly ← optField (t.pairs ++ extra) "assembly" decOptStr none
    let biotype ← optField (t.pairs ++ extra) "biotype" decOptStr none
    let transcript_checksum ←
      optField (t.pairs ++ extra) "transcript_checksum" decOptStr none
    let mane_type ← optField (t.pairs ++ extra) "mane_type" decOptStr none
    let gene_name ← optField (t.pairs ++ extra) "gene_name" decOptStr none
    let gene_id ← optField (t.pairs ++ extra) "gene_id" decOptStr none
    let gene_id_version ← optField (t.pairs ++ extra) "gene_id_version" decOptInt none
    let genomic_ranges ←
      GenomicRange.from_dict (← reqField (t.pairs ++ extra) "genomic_ranges")
    let loc_checksum ← optField (t.pairs ++ extra) "loc_checksum" decOptStr none
    let exons ← optField (t.pairs ++ extra) "exons" decExons []
    let exon_set_checksum ←
      optField (t.pairs ++ extra) "exon_set_checksum" decOptStr none
    let utrs ← optField (t.pairs ++ extra) "utrs" decUtrs []
    return { request_id, ens_stable_id, ens_stable_id_version, refseq_stable_id,
             refseq_stable_id_version, assembly, biotype, transcript_checksum,
             mane_type, gene_name, gene_id, gene_id_version, genomic_ranges,
             loc_checksum, exons, exon_set_checksum, utrs }) = Except.ok t
  rw [req_request_id, opt_ens_stable_id, opt_ens_stable_id_version,
      opt_refseq_stable_id, opt_refseq_stable_id_version, opt_assembly,
      opt_biotype, opt_transcript_checksum, opt_mane_type, opt_gene_name,
      opt_gene_id, opt_gene_id_version, req_genomic_ranges, opt_loc_checksum,
      opt_exons, opt_exon_set_checksum, opt_utrs]
  simp only [ok_bind, decStr, decOptStr_optStr, decOptInt_optInt,
             genomicRange_round, mapM_exon_round, mapM_utr_round]
  rfl

/-- C9. Round trip: `Transcript.from_dict (Transcript.to_dict t)` recovers
`t` on every field, for every `Transcript` value. -/
theorem transcript_round_trip (t : Transcript) :
    Transcript.from_dict t.to_dict = .ok t := by
  have h := Transcript.from_dict_pairs_append t []
  simpa [Transcript.to_dict] using h

/-! ## Identifier classification (C3) -/

theorem pyStartswith_append (p r : String) : pyStartswith (p ++ r) p = true := by
  show List.isPrefixOf p.data (p ++ r).data = true
  rw [String.data_append, List.isPrefixOf_iff_prefix]
  exact ⟨r.data, rfl⟩

theorem pyStartswith_iff (s p : String) : pyStartswith s p = true ↔ ∃ r, s = p ++ r := by
  constructor
  · intro h
    have hpre : p.data <+: s.data := by
      rw [← List.isPrefixOf_iff_prefix]; exact h
    obtain ⟨tl, htl⟩ := hpre
    refine ⟨String.mk tl, String.ext ?_⟩
    rw [String.data_append]
    exact htl.symm
  · rintro ⟨r, rfl⟩
    exact pyStartswith_append p r

theorem nm_not_enst (r : String) : pyStartswith ("NM_" ++ r) "ENST" = false := by
  show List.isPrefixOf "ENST".data ("NM_" ++ r).data = false
  rw [String.data_append]
  rfl

theorem nr_not_enst (r : String) : pyStartswith ("NR_" ++ r) "ENST" = false := by
  show List.isPrefixOf "ENST".data ("NR_" ++ r).data = false
  rw [String.data_append]
  rfl

theorem nr_not_nm (r : String) : pyStartswith ("NR_" ++ r) "NM_" = false := by
  show List.isPrefixOf "NM_".data ("NR_" ++ r).data = false
  rw [String.data_append]
  rfl

/-- C3 counterexample: the claim demands that a supported prefix followed by
non-digits fail classification, but `check_id_type` never looks past the
prefix: `"ENSTx"` is classified as Ensembl instead of failing. -/
theorem check_id_type_accepts_nondigit_tail :
    check_id_type "ENSTx" = .ok "ensembl" := rfl

/-- C3 (amended): `check_id_type` dispatches on the prefix alone — any string
starting with `"ENST"` is classified `"ensembl"`, any string starting with
`"NM_"` or `"NR_"` is classified `"refseq"`, and every other string fails
with `InvalidTranscriptId`; the characters after the prefix (digits or not)
are never inspected. -/
theorem check_id_type_prefix_dispatch (s : String) :
    (∀ r, s = "ENST" ++ r → check_id_type s = .ok "ensembl")
  ∧ (∀ r, s = "NM_" ++ r → check_id_type s = .ok "refseq")
  ∧ (∀ r, s = "NR_" ++ r → check_id_type s = .ok "refseq")
  ∧ ((¬∃ r, s = "ENST" ++ r) → (¬∃ r, s = "NM_" ++ r) → (¬∃ r, s = "NR_" ++ r) →
      check_id_type s = .error (.invalidTranscriptId s)) := by
  refine ⟨?_, ?_, ?_, ?_⟩
  · rintro r rfl
    simp [check_id_type, pyStartswith_append]
  · rintro r rfl
    simp [check_id_type, pyStartswith_append, nm_not_enst]
  · rintro r rfl
    simp [check_id_type, pyStartswith_append, nr_not_enst, nr_not_nm]
  · intro h1 h2 h3
    have e1 : pyStartswith s "ENST" = false := by
      cases h : pyStartswith s "ENST"
      · rfl
      · exact absurd ((pyStartswith_iff s "ENST").mp h) h1
    have e2 : pyStartswith s "NM_" = false := by
      cases h : pyStartswith s "NM_"
      · rfl
      · exact absurd ((pyStartswith_iff s "NM_").mp h) h2
    have e3 : pyStartswith s "NR_" = false := by
      cases h : pyStartswith s "NR_"
      · rfl
      · exact absurd ((pyStartswith_iff s "NR_").mp h) h3
    simp [check_id_type, e1, e2, e3]

/-- Witness for C3's amended theorem at concrete identifiers. -/
theorem check_id_type_prefix_dispatch_witness :
    check_id_type "ENST00000288602" = .ok "ensembl" ∧
    check_id_type "NM_000551.3" = .ok "refseq" ∧
    check_id_type "NR_023343" = .ok "refseq" ∧
    check_id_type "BRCA1" = .error (.invalidTranscriptId "BRCA1") := by
  have no_pre : ∀ p : String, pyStartswith "BRCA1" p = false →
      ¬∃ r, "BRCA1" = p ++ r := by
    intro p hfalse
    rintro ⟨r, h⟩
    rw [h, pyStartswith_append] at hfalse
    exact Bool.noConfusion hfalse
  exact ⟨(check_id_type_prefix_dispatch "ENST00000288602").1 "00000288602" rfl,
         (check_id_type_prefix_dispatch "NM_000551.3").2.1 "000551.3" rfl,
         (check_id_type_prefix_dispatch "NR_023343").2.2.1 "023343" rfl,
         (check_id_type_prefix_dispatch "BRCA1").2.2.2
           (no_pre "ENST" rfl) (no_pre "NM_" rfl) (no_pre "NR_" rfl)⟩

/-! ## Version-suffix detection (C7) -/

theorem pySplitDot_ne_nil (l : List Char) : pySplitDot l ≠ [] := by
  induction l with
  | nil => simp [pySplitDot]
  | cons c rest ih =>
    simp only [pySplitDot]
    split
    · simp
    · cases hrest : pySplitDot rest with
      | nil => exact absurd hrest ih
      | cons h t => simp

theorem pySplitDot_length (l : List Char) :
    (pySplitDot l).length = l.count '.' + 1 := by
  induction l with
  | nil => simp [pySplitDot]
  | cons c rest ih =>
    by_cases hc : c = '.'
    · subst hc
      simp [pySplitDot, List.count_cons, ih]
    · cases hrest : pySplitDot rest with
      | nil => exact absurd hrest (pySplitDot_ne_nil rest)
      | cons h t =>
        rw [hrest] at ih
        simp only [pySplitDot, if_neg hc, hrest]
        simp only [List.length_cons] at ih ⊢
        rw [List.count_cons]
        simp [hc, ih]

theorem pySplitDot_no_dot (l : List Char) (h : '.' ∉ l) : pySplitDot l = [l] := by
  induction l with
  | nil => rfl
  | cons c rest ih =>
    have hc : ¬c = '.' := fun hc => h (hc ▸ List.mem_cons_self c rest)
    have hrest : '.' ∉ rest := fun hm => h (List.mem_cons_of_mem c hm)
    simp only [pySplitDot, if_neg hc, ih hrest]

theorem pySplitDot_one_dot (a d : List Char) (ha : '.' ∉ a) :
    pySplitDot (a ++ '.' :: d) = a :: pySplitDot d := by
  induction a with
  | nil => simp [pySplitDot]
  | cons c a' ih =>
    have hc : ¬c = '.' := fun hc => ha (hc ▸ List.mem_cons_self c a')
    have ha' : '.' ∉ a' := fun hm => ha (List.mem_cons_of_mem c hm)
    show (if c = '.' then [] :: pySplitDot (a' ++ '.' :: d)
          else match pySplitDot (a' ++ '.' :: d) with
               | [] => [[c]]
               | h :: t => (c :: h) :: t) = (c :: a') :: pySplitDot d
    rw [if_neg hc, ih ha']

/-- C7. `is_id_version_included` on an identifier with no dot returns
`false`; on an identifier with exactly one dot it returns `true` precisely
when the tail after the dot is a non-empty digit string and otherwise raises
`InvalidTranscriptId`; and on a string with two or more dots it raises the
same `InvalidTranscriptId` failure rather than returning `false`. -/
theorem is_id_version_included_spec (s : String) :
    ('.' ∉ s.toList → is_id_version_included s = .ok false)
  ∧ (∀ a d, s.toList = a ++ '.' :: d → '.' ∉ a → '.' ∉ d →
      is_id_version_included s =
        (if pyIsdigit d then .ok true else .error (.invalidTranscriptId s)))
  ∧ (2 ≤ s.toList.count '.' →
      is_id_version_included s = .error (.invalidTranscriptId s)) := by
  refine ⟨?_, ?_, ?_⟩
  · intro h
    have h1 : pySplitDot s.data = [s.data] := pySplitDot_no_dot s.data h
    simp [is_id_version_included, h1]
  · intro a d heq ha hd
    have hsplit : pySplitDot s.data = [a, d] := by
      have heq' : s.data = a ++ '.' :: d := heq
      rw [heq', pySplitDot_one_dot a d ha, pySplitDot_no_dot d hd]
    cases hdig : pyIsdigit d <;>
      simp [is_id_version_included, hsplit, hdig]
  · intro h
    have hlen : (pySplitDot s.data).length = List.count '.' s.data + 1 :=
      pySplitDot_length s.data
    have h' : 2 ≤ List.count '.' s.data := h
    have h1 : ¬(pySplitDot s.data).length = 1 := by omega
    have h2 : ¬(pySplitDot s.data).length = 2 := by omega
    simp [is_id_version_included, h1, h2]

/-- Witness for C7 at concrete identifiers of each shape. -/
theorem is_id_version_included_spec_witness :
    is_id_version_included "NM_000551" = .ok false ∧
    is_id_version_included "NM_000551.3" = .ok true ∧
    is_id_version_included "NM_000551.x" = .error (.invalidTranscriptId "NM_000551.x") ∧
    is_id_version_included "a.1.2" = .error (.invalidTranscriptId "a.1.2") := by
  refine ⟨(is_id_version_included_spec "NM_000551").1 (by decide),
          ((is_id_version_included_spec "NM_000551.3").2.1
            "NM_000551".toList ['3'] (by decide) (by decide) (by decide)).trans rfl,
          ((is_id_version_included_spec "NM_000551.x").2.1
            "NM_000551".toList ['x'] (by decide) (by decide) (by decide)).trans rfl,
          (is_id_version_included_spec "a.1.2").2.2 (by decide)⟩

/-! ## MANE resolution (C1, C2, C4) -/

/-- A TARK record for `NM_003722` carrying `mane_transcript_type = "MANE Select"`
(the upstream shape described at the provider interface). -/
def maneSelectRecord : PyDict :=
  [("stable_id", .str "NM_003722"), ("stable_id_version", .int 4),
   ("assembly", .str "GRCh38"), ("biotype", .str "protein_coding"),
   ("transcript_checksum", .str "tchk"),
   ("mane_transcript_type", .str "MANE Select"),
   ("genes", .list [.dict [("name", .str "TP63"),
                           ("stable_id", .str "ENSG00000073282"),
                           ("stable_id_version", .int 13)]]),
   ("loc_start", .int 189596746), ("loc_end", .int 189897279),
   ("loc_strand", .int 1), ("loc_region", .str "3"),
   ("loc_checksum", .str "lchk"), ("exon_set_checksum", .str "echk"),
   ("exons", .list []), ("utrs", .list [])]

/-- The response body for `NM_003722`: one record, MANE Select, and no
MANE Plus Clinical record. -/
def maneSelectResponse : PyVal :=
  .dict [("count", .int 1), ("results", .list [.dict maneSelectRecord])]

/-- C1. On the response whose single record has
`mane_transcript_type = "MANE Select"`, `parse_transcript_data` does not
return a populated `SelectedTranscripts`: its first statement
`SelectedTranscripts()` raises `TypeError` (three required dataclass fields
are missing), so resolution of `NM_003722` crashes instead of producing
`mane_transcript_found = true`. -/
theorem parse_transcript_data_raises_on_mane_select :
    parse_transcript_data maneSelectResponse =
      .error (.typeError "missing 3 required positional arguments") := rfl

/-- `parse_transcript_data` raises on every input, whatever the upstream
data: the dataclass constructor call fails before the record loop runs. -/
theorem parse_transcript_data_always_raises (data : PyVal) :
    parse_transcript_data data =
      .error (.typeError "missing 3 required positional arguments") := rfl

theorem error_bind {α β : Type} (e : PyErr) (f : α → Except PyErr β) :
    (Except.error e : Except PyErr α) >>= f = .error e := rfl

/-- C2. `fetch_multiple_transcripts` does not return one result per input:
for the batch `["NM_003722", "NM_000059"]`, whatever the upstream responses,
the per-identifier `TypeError` propagates through `asyncio.gather` and the
whole batch raises instead of yielding a list. -/
theorem fetch_multiple_transcripts_aborts (responses : String → PyVal) :
    fetch_multiple_transcripts responses ["NM_003722", "NM_000059"] =
      .error (.typeError "missing 3 required positional arguments") := by
  simp only [fetch_multiple_transcripts, asyncioGather, List.map_cons,
             List.map_nil, List.mapM_cons, fetch_mane_transcript, id_eq,
             parse_transcript_data_always_raises, error_bind]

/-- A TARK record for the non-coding `NR_023343` with no
`mane_transcript_type` key, version 1. -/
def nonManeRecord1 : PyDict :=
  [("stable_id", .str "NR_023343"), ("stable_id_version", .int 1),
   ("assembly", .str "GRCh38"), ("biotype", .str "lncRNA"),
   ("loc_start", .int 10), ("loc_end", .int 20), ("loc_strand", .int 1),
   ("loc_region", .str "1"), ("loc_checksum", .str "c1"),
   ("exons", .list []), ("utrs", .list [])]

/-- The same identifier at version 2 — a second non-MANE version. -/
def nonManeRecord2 : PyDict :=
  [("stable_id", .str "NR_023343"), ("stable_id_version", .int 2),
   ("assembly", .str "GRCh38"), ("biotype", .str "lncRNA"),
   ("loc_start", .int 10), ("loc_end", .int 22), ("loc_strand", .int 1),
   ("loc_region", .str "1"), ("loc_checksum", .str "c2"),
   ("exons", .list []), ("utrs", .list [])]

/-- A response carrying two non-MANE transcript versions of one identifier. -/
def nonManeResponse : PyVal :=
  .dict [("count", .int 2),
         ("results", .list [.dict nonManeRecord1, .dict nonManeRecord2])]

/-- C4. On a response whose records carry no `mane_transcript_type`,
`parse_transcript_data` raises (the constructor bug) — and even its record
loop, had it run, skips every record lacking that key without retaining a
sole version or surfacing any multiple-versions condition: folding the loop
body over both versions leaves the accumulated state untouched. -/
theorem parse_non_mane_versions_dropped :
    parse_transcript_data nonManeResponse =
      .error (.typeError "missing 3 required positional arguments") ∧
    List.foldlM parse_loop_step {} [nonManeRecord1, nonManeRecord2] =
      .ok ({} : SelectedTranscriptsClassAttrs) := ⟨rfl, rfl⟩

/-! ## The store's location filter (C5) -/

/-- A transcript whose stored range is `(120, 180)` — inside `[100, 200]`. -/
def t120 : Transcript :=
  { request_id := "r1", refseq_stable_id := some "NM_000001",
    gene_name := some "GENE1",
    genomic_ranges := { range_id := "range_id", loc_start := 120, loc_end := 180,
                        loc_region := "13", loc_strand := 1, loc_checksum := "c120" } }

/-- A transcript whose stored range is `(150, 250)` — partial overlap. -/
def t250 : Transcript :=
  { request_id := "r2", refseq_stable_id := some "NM_000002",
    gene_name := some "GENE2",
    genomic_ranges := { range_id := "range_id", loc_start := 150, loc_end := 250,
                        loc_region := "13", loc_strand := 1, loc_checksum := "c250" } }

/-- The store after adding both transcripts. -/
def dbC5 : DBState := (add_transcript (add_transcript DBState.empty t120).1 t250).1

/-- C5. The store holds both transcripts (and the `(120, 180)` one is
readable), yet `list_transcripts` with `location_range = (100, 200)` returns
the empty list: the filter tests document keys `"location_start"` /
`"location_end"`, which no stored document has (ranges are stored under the
nested `"genomic_ranges"` dict), so the contained transcript is excluded
along with everything else. -/
theorem list_transcripts_location_filter_returns_nothing :
    transcriptsDB.count dbC5 = 2 ∧
    get_transcript dbC5 1 = .ok { t120 with ens_stable_id := some "" } ∧
    list_transcripts dbC5 none (some (100, 200)) = .ok [] := ⟨rfl, rfl, rfl⟩

/-! ## Store invariant on add (C6) -/

/-- C6. `add_transcript` on a transcript whose `refseq_stable_id` is absent
(`None`) or empty raises `MissingRefseqStableId`, leaves the store exactly as
it was (no document written), and so leaves `count()` unchanged. -/
theorem add_transcript_missing_refseq (db : DBState) (t : Transcript)
    (h : t.refseq_stable_id = none ∨ t.refseq_stable_id = some "") :
    add_transcript db t = (db, .error .missingRefseqStableId) ∧
    transcriptsDB.count (add_transcript db t).1 = transcriptsDB.count db := by
  have htr : truthyOptStr t.refseq_stable_id = false := by
    rcases h with h | h <;> rw [h] <;> rfl
  refine ⟨?_, ?_⟩ <;> simp [add_transcript, htr]

/-- A transcript with no `refseq_stable_id` at all. -/
def noRefseqT : Transcript :=
  { request_id := "r0",
    genomic_ranges := { range_id := "range_id", loc_start := 1, loc_end := 2,
                        loc_region := "1", loc_strand := 1, loc_checksum := "c0" } }

/-- Witness for C6 on an empty store and a refseq-less transcript. -/
theorem add_transcript_missing_refseq_witness :
    add_transcript DBState.empty noRefseqT =
      (DBState.empty, .error .missingRefseqStableId) ∧
    transcriptsDB.count (add_transcript DBState.empty noRefseqT).1 =
      transcriptsDB.count DBState.empty :=
  add_transcript_missing_refseq DBState.empty noRefseqT (Or.inl rfl)

/-! ## Store statistics (C8) -/

/-- Whether a dict value is a Python list. -/
def isListVal : PyVal → Bool
  | .list _ => true
  | _ => false

/-- The exon-list length of a stored document (its `"exons"` value,
defaulting to the empty list). -/
def docExonLen (d : PyDict) : Nat :=
  match pyGetD d "exons" (.list []) with
  | .list xs => xs.length
  | _ => 0

theorem pyLen_exons (d : PyDict)
    (hd : isListVal (pyGetD d "exons" (.list [])) = true) :
    pyLen (pyGetD d "exons" (.list [])) = .ok (docExonLen d) := by
  unfold docExonLen
  cases hv : pyGetD d "exons" (.list []) with
  | list xs => rfl
  | pynone => rw [hv] at hd; simp [isListVal] at hd
  | int n => rw [hv] at hd; simp [isListVal] at hd
  | str s => rw [hv] at hd; simp [isListVal] at hd
  | bool b => rw [hv] at hd; simp [isListVal] at hd
  | dict kvs => rw [hv] at hd; simp [isListVal] at hd

theorem elif_clinical (v : PyVal) :
    (!pyEqStr v "MANE SELECT" && pyEqStr v "MANE PLUS CLINICAL") =
      pyEqStr v "MANE PLUS CLINICAL" := by
  cases v <;> simp [pyEqStr]
  case str t =>
    by_cases h : t = "MANE PLUS CLINICAL"
    · subst h; simp
    · simp [h]

/-- The predicate counted into `MANE_transcripts`. -/
def isManeSelectDoc (d : PyDict) : Bool := pyEqStr (pyGet d "mane_type") "MANE SELECT"

/-- The predicate counted into `clinical_plus_transcripts`. -/
def isClinicalDoc (d : PyDict) : Bool :=
  pyEqStr (pyGet d "mane_type") "MANE PLUS CLINICAL"

theorem stats_fold (l : List PyDict) (acc : Nat × Nat × Nat × Nat)
    (h : ∀ d ∈ l, isListVal (pyGetD d "exons" (.list [])) = true) :
    l.foldlM stats_step acc =
      .ok (acc.1 + l.length, acc.2.1 + l.countP isManeSelectDoc,
           acc.2.2.1 + l.countP isClinicalDoc,
           acc.2.2.2 + (l.map docExonLen).sum) := by
  induction l generalizing acc with
  | nil => rfl
  | cons d rest ih =>
    have hd := h d (List.mem_cons_self d rest)
    have hrest : ∀ x ∈ rest, isListVal (pyGetD x "exons" (.list [])) = true :=
      fun x hx => h x (List.mem_cons_of_mem d hx)
    obtain ⟨a, b, c, e⟩ := acc
    have hstep : stats_step (a, b, c, e) d =
        .ok (a + 1, b + (if isManeSelectDoc d then 1 else 0),
             c + (if isClinicalDoc d then 1 else 0), e + docExonLen d) := by
      simp only [stats_step, pyLen_exons d hd, ok_bind, elif_clinical,
                 isManeSelectDoc, isClinicalDoc]
      have addIf : ∀ (n : ℕ) (x : Bool),
          (if x = true then n + 1 else n) = n + (if x = true then 1 else 0) := by
        intro n x
        cases x <;> simp
      rw [addIf b, addIf c]
      rfl
    rw [List.foldlM_cons, hstep, ok_bind, ih _ hrest]
    simp only [List.length_cons, List.countP_cons, List.map_cons, List.sum_cons]
    refine congrArg Except.ok ?_
    simp only [Prod.mk.injEq]
    refine ⟨by omega, by omega, by omega, by omega⟩

/-- C8. `stats()` returns, over any store whose documents carry list-valued
`"exons"` (as every document written by `add_transcript` does):
`total_transcripts` = number of stored documents, `MANE_transcripts` /
`clinical_plus_transcripts` = counts by exact string match of the stored
`mane_type` against `"MANE SELECT"` / `"MANE PLUS CLINICAL"`, and
`total_exons` = the sum of the documents' exon-list lengths. -/
theorem stats_spec (db : DBState)
    (h : ∀ d ∈ DB.read_all db, isListVal (pyGetD d "exons" (.list [])) = true) :
    stats db = .ok (.dict
      [("total_transcripts", .int ((DB.read_all db).length : Int)),
       ("MANE_transcripts", .int ((DB.read_all db).countP isManeSelectDoc : Int)),
       ("clinical_plus_transcripts", .int ((DB.read_all db).countP isClinicalDoc : Int)),
       ("total_exons", .int (((DB.read_all db).map docExonLen).sum : Int))]) := by
  simp only [stats, stats_fold (DB.read_all db) (0, 0, 0, 0) h, ok_bind]
  simp only [Nat.zero_add]
  rfl

/-- A MANE Select transcript with two exons, for the C8 witness store. -/
def tMane : Transcript :=
  { request_id := "rm", refseq_stable_id := some "NM_000017",
    mane_type := some "MANE SELECT",
    genomic_ranges := { range_id := "range_id", loc_start := 1, loc_end := 9,
                        loc_region := "1", loc_strand := 1, loc_checksum := "cm" },
    exons := [{ exon_id := some 1,
                genomic_ranges := { range_id := "range_id", loc_start := 1,
                                    loc_end := 4, loc_region := "1",
                                    loc_strand := 1, loc_checksum := "e1" } },
              { exon_id := some 2,
                genomic_ranges := { range_id := "range_id", loc_start := 5,
                                    loc_end := 9, loc_region := "1",
                                    loc_strand := 1, loc_checksum := "e2" } }] }

/-- A MANE Plus Clinical transcript with one exon, for the C8 witness store. -/
def tClinical : Transcript :=
  { request_id := "rc", refseq_stable_id := some "NM_000018",
    mane_type := some "MANE PLUS CLINICAL",
    genomic_ranges := { range_id := "range_id", loc_start := 1, loc_end := 5,
                        loc_region := "2", loc_strand := -1, loc_checksum := "cc" },
    exons := [{ exon_id := some 3,
                genomic_ranges := { range_id := "range_id", loc_start := 1,
                                    loc_end := 5, loc_region := "2",
                                    loc_strand := -1, loc_checksum := "e3" } }] }

/-- A store holding one MANE Select and one MANE Plus Clinical transcript. -/
def dbStats : DBState :=
  (add_transcript (add_transcript DBState.empty tMane).1 tClinical).1

/-- Witness for C8: over the two-transcript store the totals are
`{2, 1, 1, 3}`. -/
theorem stats_spec_witness :
    stats dbStats = .ok (.dict
      [("total_transcripts", .int 2), ("MANE_transcripts", .int 1),
       ("clinical_plus_transcripts", .int 1), ("total_exons", .int 3)]) :=
  (stats_spec dbStats (List.all_eq_true.mp (by rfl))).trans rfl

/-! ## Store round trip (C10) -/

theorem beq_false_of_lt {a n : Nat} (h : a < n) : (a == n) = false := by
  simp [Nat.ne_of_lt h]

theorem find_append_right {l₁ l₂ : List (Nat × PyDict)} {p : Nat × PyDict → Bool}
    (h : ∀ x ∈ l₁, p x = false) : (l₁ ++ l₂).find? p = l₂.find? p := by
  induction l₁ with
  | nil => rfl
  | cons x xs ih =>
    have hx := h x (List.mem_cons_self x xs)
    rw [List.cons_append, List.find?_cons, hx]
    exact ih (fun y hy => h y (List.mem_cons_of_mem x hy))

theorem map_upd_noop (f : PyDict → PyDict) {l : List (Nat × PyDict)} {n : Nat}
    (h : ∀ x ∈ l, (x.1 == n) = false) :
    l.map (fun p => if p.1 == n then (p.1, f p.2) else p) = l := by
  induction l with
  | nil => rfl
  | cons x xs ih =>
    rw [List.map_cons, if_neg (by rw [h x (List.mem_cons_self x xs)]; exact
          fun hc => Bool.noConfusion hc),
        ih (fun y hy => h y (List.mem_cons_of_mem x hy))]

theorem pairs_set_id (t₀ : Transcript) (v : PyVal) :
    pySet t₀.pairs "id" v = t₀.pairs ++ [("id", v)] := rfl

theorem update_after_create (db : DBState) (hwf : db.wf) (t₀ : Transcript) :
    DB.update { docs := db.docs ++ [(db.next_id, t₀.pairs)], next_id := db.next_id + 1 }
      db.next_id [("id", .int db.next_id)] =
    .ok { docs := db.docs ++ [(db.next_id, t₀.pairs ++ [("id", .int db.next_id)])],
          next_id := db.next_id + 1 } := by
  have hfalse : ∀ x ∈ db.docs, (x.1 == db.next_id) = false :=
    fun x hx => beq_false_of_lt (hwf x hx)
  have hcond : ((db.docs ++ [(db.next_id, t₀.pairs)]).any
      (fun p => p.1 == db.next_id)) = true := by
    simp [List.any_append]
  simp only [DB.update, hcond, if_true]
  rw [List.map_append,
      map_upd_noop (fun x => pyDictUpdate x
        (List.filter (fun kv => !isPyNone kv.2)
          [(("id" : String), PyVal.int db.next_id)])) hfalse,
      List.map_cons, List.map_nil, if_pos (by simp)]
  rw [show List.filter (fun kv => !isPyNone kv.2)
        [(("id" : String), PyVal.int db.next_id)] =
        [(("id" : String), PyVal.int db.next_id)] from rfl]
  rw [show pyDictUpdate t₀.pairs [(("id" : String), PyVal.int db.next_id)] =
        pySet t₀.pairs "id" (PyVal.int db.next_id) from rfl]
  rw [pairs_set_id]

theorem read_after_create (db : DBState) (hwf : db.wf) (doc : PyDict) :
    DB.read { docs := db.docs ++ [(db.next_id, doc)], next_id := db.next_id + 1 }
      db.next_id = some doc := by
  have hfalse : ∀ x ∈ db.docs, (x.1 == db.next_id) = false :=
    fun x hx => beq_false_of_lt (hwf x hx)
  simp only [DB.read, find_append_right hfalse, List.find?_cons]
  rw [show ((db.next_id == db.next_id) = true) from by simp]
  rfl

/-- `add_transcript` on a truthy `refseq_stable_id` appends exactly one
document — the `to_dict` projection of the (Ensembl-normalized) transcript
with the assigned `"id"` appended — and returns the assigned id. -/
theorem add_transcript_eq (db : DBState) (t : Transcript) (hwf : db.wf)
    (h : truthyOptStr t.refseq_stable_id = true) :
    add_transcript db t =
      ({ docs := db.docs ++ [(db.next_id,
           Transcript.pairs { t with ens_stable_id := some (t.ens_stable_id.getD "") } ++
           [("id", .int db.next_id)])],
         next_id := db.next_id + 1 }, .ok db.next_id) := by
  obtain ⟨rid, ens, ensv, rsq, rsqv, asm2, bio, tch, mt, gn, gi, giv, gr, lc,
          ex, esc, ut⟩ := t
  cases ens with
  | none =>
    simp only [add_transcript, h, Bool.not_true, Bool.false_eq_true, if_false,
               Transcript.to_dict, DB.create, if_true]
    rw [update_after_create db hwf]
    rfl
  | some s =>
    simp only [add_transcript, h, Bool.not_true, Bool.false_eq_true, if_false,
               Transcript.to_dict, DB.create]
    rw [if_neg (fun hc => Option.noConfusion hc), update_after_create db hwf]
    rfl

/-- C10. For every transcript with a truthy `refseq_stable_id` and every
well-formed store, `add_transcript` succeeds with the store's next id, the
written document is the transcript's `to_dict` pairs with the extra `"id"`
field appended, and `get_transcript` on that id reconstructs the transcript
exactly — every field as given, except that an absent (`None`)
`ens_stable_id` comes back as `""`. -/
theorem add_get_round (db : DBState) (t : Transcript) (hwf : db.wf)
    (h : truthyOptStr t.refseq_stable_id = true) :
    (add_transcript db t).2 = .ok db.next_id ∧
    DB.read (add_transcript db t).1 db.next_id =
      some (Transcript.pairs { t with ens_stable_id := some (t.ens_stable_id.getD "") } ++
            [("id", .int db.next_id)]) ∧
    get_transcript (add_transcript db t).1 db.next_id =
      .ok { t with ens_stable_id := some (t.ens_stable_id.getD "") } := by
  have hadd := add_transcript_eq db t hwf h
  have hread : DB.read (add_transcript db t).1 db.next_id =
      some (Transcript.pairs { t with ens_stable_id := some (t.ens_stable_id.getD "") } ++
            [("id", .int db.next_id)]) := by
    rw [hadd]
    exact read_after_create db hwf _
  refine ⟨by rw [hadd], hread, ?_⟩
  simp only [get_transcript, hread]
  exact Transcript.from_dict_pairs_append _ _

/-- Witness for C10: adding `t120` (whose `ens_stable_id` is `None`) to the
empty store yields id 1 and reading it back returns `t120` with
`ens_stable_id = ""`. -/
theorem add_get_round_witness :
    (add_transcript DBState.empty t120).2 = .ok 1 ∧
    DB.read (add_transcript DBState.empty t120).1 1 =
      some (Transcript.pairs { t120 with ens_stable_id := some "" } ++
            [("id", .int 1)]) ∧
    get_transcript (add_transcript DBState.empty t120).1 1 =
      .ok { t120 with ens_stable_id := some "" } :=
  add_get_round DBState.empty t120
    (fun p hp => absurd hp (List.not_mem_nil p)) rfl

end Bedmaker
